import Mathlib

/-!
Verification of the `tutil` terminal-styling library (`src/crayon.rs`) and its
screen-size collaborator (`src/screen/unix.rs`) against the design document.

The Rust code is shallowly embedded: `Color`, `Style` and `StyledString` become
Lean structures, the fluent builder methods become pure functions, and the
`fmt::Display` serialization (`write_prefix` / `write_suffix`) is modelled both
as a pure string-producing function and as the exact sequence of write calls the
implementation issues against a formatter, so that error propagation through a
fallible destination can be stated.
-/

/-- Embedding of the Rust enum `Color` from `src/crayon.rs`: eight named ANSI
colours, a 256-palette index (`Fixed(u8)`) and a true-colour triple
(`Rgb(u8, u8, u8)`). The `u8` payloads are modelled as `Nat`; the code only
renders them in decimal, so no wrap-around arithmetic occurs. -/
inductive Color where
  | Black
  | Red
  | Green
  | Yellow
  | Blue
  | Purple
  | Cyan
  | White
  | Fixed (n : Nat)
  | Rgb (r : Nat) (g : Nat) (b : Nat)
deriving DecidableEq

/-- Embedding of `Color::write_foreground_code`: the exact string the Rust
`match` writes to the formatter for a foreground colour. -/
def Color.write_foreground_code : Color → String
  | Color.Black => "30"
  | Color.Red => "31"
  | Color.Green => "32"
  | Color.Yellow => "33"
  | Color.Blue => "34"
  | Color.Purple => "35"
  | Color.Cyan => "36"
  | Color.White => "37"
  | Color.Fixed n => "38;5;" ++ Nat.repr n
  | Color.Rgb r g b => "38;2;" ++ Nat.repr r ++ ";" ++ Nat.repr g ++ ";" ++ Nat.repr b

/-- Embedding of `Color::write_background_code`: the exact string the Rust
`match` writes to the formatter for a background colour. -/
def Color.write_background_code : Color → String
  | Color.Black => "40"
  | Color.Red => "41"
  | Color.Green => "42"
  | Color.Yellow => "43"
  | Color.Blue => "44"
  | Color.Purple => "45"
  | Color.Cyan => "46"
  | Color.White => "47"
  | Color.Fixed n => "48;5;" ++ Nat.repr n
  | Color.Rgb r g b => "48;2;" ++ Nat.repr r ++ ";" ++ Nat.repr g ++ ";" ++ Nat.repr b

/-- Embedding of the Rust struct `Style` from `src/crayon.rs`: optional
foreground and background colours and seven boolean attributes. -/
structure Style where
  foreground : Option Color
  background : Option Color
  bold : Bool
  dimmed : Bool
  italic : Bool
  underline : Bool
  blink : Bool
  reverse : Bool
  hidden : Bool
deriving DecidableEq

/-- Embedding of `impl Default for Style`: every field `None` / `false`. -/
def Style.default : Style where
  foreground := none
  background := none
  bold := false
  dimmed := false
  italic := false
  underline := false
  blink := false
  reverse := false
  hidden := false

/-- Embedding of `Style::new`, which just returns `Style::default()`. -/
def Style.new : Style := Style.default

/-- Embedding of the builder method `Style::foreground` (named `set_foreground`
here because the Lean field projection already uses the source name). It is the
Rust struct-update `Style { foreground: Some(color), ..*self }`. -/
def Style.set_foreground (s : Style) (color : Color) : Style :=
  { s with foreground := some color }

/-- Embedding of the builder method `Style::background`. -/
def Style.set_background (s : Style) (color : Color) : Style :=
  { s with background := some color }

/-- Embedding of the builder method `Style::bold`. -/
def Style.set_bold (s : Style) : Style := { s with bold := true }

/-- Embedding of the builder method `Style::dimmed`. -/
def Style.set_dimmed (s : Style) : Style := { s with dimmed := true }

/-- Embedding of the builder method `Style::italic`. -/
def Style.set_italic (s : Style) : Style := { s with italic := true }

/-- Embedding of the builder method `Style::underline`. -/
def Style.set_underline (s : Style) : Style := { s with underline := true }

/-- Embedding of the builder method `Style::blink`. -/
def Style.set_blink (s : Style) : Style := { s with blink := true }

/-- Embedding of the builder method `Style::reverse`. -/
def Style.set_reverse (s : Style) : Style := { s with reverse := true }

/-- Embedding of the builder method `Style::hidden`. -/
def Style.set_hidden (s : Style) : Style := { s with hidden := true }

/-- Embedding of `Style::is_plain`: structural equality with the default, as
the derived `PartialEq` of the Rust struct computes it. -/
def Style.is_plain (s : Style) : Bool := decide (s = Style.default)

/-- One step of the `write_char` closure inside `Style::write_prefix`: when
something was already written, first a `;` goes out, then the piece itself, and
the `written_anything` flag becomes true. The state is (output so far, flag). -/
def write_piece (st : String × Bool) (p : String) : String × Bool :=
  ((if st.2 then st.1 ++ ";" else st.1) ++ p, true)

/-- Embedding of `Style::write_prefix` as a pure function returning the full
string the Rust method writes: empty for a plain style, otherwise `ESC[`, the
conditional attribute digits `1`..`7` with `;` separators handled by the
`written_anything` flag, the optional foreground and background codes, and the
final `m`. The background branch mirrors the source exactly, including that it
does not update the flag. -/
def Style.write_prefix (s : Style) : String :=
  if Style.is_plain s then "" else
    let st0 : String × Bool := ("\x1b[", false)
    let st1 := if s.bold then write_piece st0 "1" else st0
    let st2 := if s.dimmed then write_piece st1 "2" else st1
    let st3 := if s.italic then write_piece st2 "3" else st2
    let st4 := if s.underline then write_piece st3 "4" else st3
    let st5 := if s.blink then write_piece st4 "5" else st4
    let st6 := if s.reverse then write_piece st5 "6" else st5
    let st7 := if s.hidden then write_piece st6 "7" else st6
    let st8 := match s.foreground with
      | some fg => write_piece st7 ( Color.write_foreground_code fg)
      | none => st7
    let st9 := match s.background with
      | some bg => ((if st8.2 then st8.1 ++ ";" else st8.1) ++ Color.write_background_code bg, st8.2)
      | none => st8
    st9.1 ++ "m"

/-- Embedding of `Style::write_suffix`: empty for a plain style, otherwise the
fixed reset sequence `ESC[0m`. -/
def Style.write_suffix (s : Style) : String :=
  if Style.is_plain s then "" else "\x1b[0m"

/-- Embedding of the Rust struct `StyledString`: a string paired with a
`Style`. The `Cow` borrow-or-own distinction is irrelevant to observable
behaviour and is dropped. -/
structure StyledString where
  string : String
  style : Style
deriving DecidableEq

/-- Embedding of `impl Display for StyledString`: prefix, then the raw string,
then the suffix. -/
def StyledString.display (ss : StyledString) : String :=
  Style.write_prefix ss.style ++ ss.string ++ Style.write_suffix ss.style

/-- Embedding of `impl Deref for StyledString`: the raw string content. -/
def StyledString.deref (ss : StyledString) : String := ss.string

/-- Embedding of `impl From<S> for StyledString`: pairs the text with the
default style. -/
def StyledString.fromString (t : String) : StyledString :=
  { string := t, style := Style.default }

/-- Embedding of `Style::paint`. -/
def Style.paint (s : Style) (t : String) : StyledString :=
  { string := t, style := s }

/-- Embedding of `Color::normal`. -/
def Color.normal (c : Color) : Style :=
  { Style.default with foreground := some c }

/-- Embedding of `Color::paint`: paints with `self.normal()`. -/
def Color.paint (c : Color) (t : String) : StyledString :=
  { string := t, style := Color.normal c }

/-- Embedding of `Color::on`. -/
def Color.on (c : Color) (background : Color) : Style :=
  { Style.default with foreground := some c, background := some background }

/-- Embedding of `Color::bold`. -/
def Color.bold (c : Color) : Style :=
  { Style.default with foreground := some c, bold := true }

/-- Embedding of `Color::dimmed`. -/
def Color.dimmed (c : Color) : Style :=
  { Style.default with foreground := some c, dimmed := true }

/-- Embedding of `Color::italic`. -/
def Color.italic (c : Color) : Style :=
  { Style.default with foreground := some c, italic := true }

/-- Embedding of `Color::underline`. -/
def Color.underline (c : Color) : Style :=
  { Style.default with foreground := some c, underline := true }

/-- Embedding of `Color::blink`. -/
def Color.blink (c : Color) : Style :=
  { Style.default with foreground := some c, blink := true }

/-- Embedding of `Color::reverse`. -/
def Color.reverse (c : Color) : Style :=
  { Style.default with foreground := some c, reverse := true }

/-- Embedding of `Color::hidden`. -/
def Color.hidden (c : Color) : Style :=
  { Style.default with foreground := some c, hidden := true }

/-- Embedding of the struct `WinSize` from `src/screen/unix.rs`, as filled in
by the `TIOCGWINSZ` ioctl. The `c_ushort` fields are modelled as `Nat`. -/
structure WinSize where
  ws_row : Nat
  ws_col : Nat
  ws_xpixel : Nat
  ws_ypixel : Nat
deriving DecidableEq

/-- Embedding of the newtype `Width` from `src/screen/mod.rs`. -/
structure Width where
  val : Nat
deriving DecidableEq

/-- Embedding of the newtype `Height` from `src/screen/mod.rs`. -/
structure Height where
  val : Nat
deriving DecidableEq

/-- The outside world observed by one call of `screen::unix::size`: the return
value of `isatty(STDOUT_FILENO)`, the return value of the `TIOCGWINSZ` ioctl,
and the window size the ioctl reports into its out-parameter. -/
structure ScreenEnv where
  isatty_ret : Int
  ioctl_ret : Int
  reported : WinSize
deriving DecidableEq

/-- Embedding of `screen::unix::size`: `None` unless `isatty` returned exactly
`1`; then the ioctl runs, success being a `0` return, in which case the
reported columns and rows are returned unchanged, otherwise `None`. -/
def size (env : ScreenEnv) : Option (Width × Height) :=
  let is_tty := env.isatty_ret == 1
  if !is_tty then none
  else if env.ioctl_ret == 0 then
    some ({ val := env.reported.ws_col }, { val := env.reported.ws_row })
  else none

/-- Concatenation of a list of code strings where every element after the
first is preceded by one semicolon (tail case). -/
def join_semis : List String → String
  | [] => ""
  | p :: ps => ";" ++ p ++ join_semis ps

/-- Semicolon-separated concatenation of a list of code strings, with no
leading or trailing semicolon. -/
def join_codes : List String → String
  | [] => ""
  | p :: ps => p ++ join_semis ps

/-- The code list the specification prescribes for a style, in the fixed
order: attribute digits `1`..`7` for exactly the flags that are set, then the
foreground code when a foreground is present, then the background code when a
background is present. This definition follows the specification text and is
compared against the embedded serializer. -/
def Style.spec_codes (s : Style) : List String :=
  (if s.bold then ["1"] else []) ++
  (if s.dimmed then ["2"] else []) ++
  (if s.italic then ["3"] else []) ++
  (if s.underline then ["4"] else []) ++
  (if s.blink then ["5"] else []) ++
  (if s.reverse then ["6"] else []) ++
  (if s.hidden then ["7"] else []) ++
  (match s.foreground with
    | some fg => [ Color.write_foreground_code fg]
    | none => []) ++
  (match s.background with
    | some bg => [ Color.write_background_code bg]
    | none => [])

/-- Concatenation of a list of strings, used to relate the sequence of write
calls issued against a formatter to the pure rendered output. -/
def join_all : List String → String
  | [] => ""
  | p :: ps => p ++ join_all ps

/-- One step of the `write_char` closure, recorded as write events instead of
accumulated output: when the flag is already set the closure issues a `;`
write and then the piece write, otherwise just the piece write. -/
def piece_write (st : List String × Bool) (p : String) : List String × Bool :=
  (st.1 ++ (if st.2 then [";", p] else [p]), true)

/-- The exact sequence of formatter writes `Style::write_prefix` performs,
mirroring the method line by line. -/
def Style.prefix_writes (s : Style) : List String :=
  if Style.is_plain s then [] else
    let st0 : List String × Bool := (["\x1b["], false)
    let st1 := if s.bold then piece_write st0 "1" else st0
    let st2 := if s.dimmed then piece_write st1 "2" else st1
    let st3 := if s.italic then piece_write st2 "3" else st2
    let st4 := if s.underline then piece_write st3 "4" else st3
    let st5 := if s.blink then piece_write st4 "5" else st4
    let st6 := if s.reverse then piece_write st5 "6" else st5
    let st7 := if s.hidden then piece_write st6 "7" else st6
    let st8 := match s.foreground with
      | some fg => piece_write st7 ( Color.write_foreground_code fg)
      | none => st7
    let st9 := match s.background with
      | some bg =>
          (st8.1 ++ (if st8.2 then [";", Color.write_background_code bg]
            else [ Color.write_background_code bg]), st8.2)
      | none => st8
    st9.1 ++ ["m"]

/-- The exact sequence of formatter writes `Display for StyledString`
performs: the prefix writes, one write of the raw string, then the suffix
writes. -/
def StyledString.display_writes (ss : StyledString) : List String :=
  Style.prefix_writes ss.style ++ [ss.string] ++
    (if Style.is_plain ss.style then [] else ["\x1b[0m"])

/-- Runs a sequence of writes against a destination modelled as a stateful,
fallible writer, stopping at the first error exactly as the `try!` chain in
the Rust `Display` implementation does. -/
def run_writes {σ ε : Type} (w : σ → String → Except ε σ) : σ → List String → Except ε σ
  | s, [] => Except.ok s
  | s, p :: ps =>
    match w s p with
    | Except.ok s2 => run_writes w s2 ps
    | Except.error e => Except.error e

/-- A destination that rejects every write, used as a concrete instance of a
failing output stream. -/
def fail_writer : Unit → String → Except Unit Unit :=
  fun _ _ => Except.error ()

/-- Ordering on the attribute flags of two styles: every attribute set in the
first is also set in the second. -/
def attr_le (s t : Style) : Prop :=
  (s.bold = true → t.bold = true) ∧
  (s.dimmed = true → t.dimmed = true) ∧
  (s.italic = true → t.italic = true) ∧
  (s.underline = true → t.underline = true) ∧
  (s.blink = true → t.blink = true) ∧
  (s.reverse = true → t.reverse = true) ∧
  (s.hidden = true → t.hidden = true)

/-- The serializer emits exactly the specified prefix shape for non-plain
styles: `ESC[`, the semicolon-joined code list, then `m`. -/
theorem write_prefix_spec (s : Style) (h : Style.is_plain s = false) :
    Style.write_prefix s = "\x1b[" ++ join_codes ( Style.spec_codes s) ++ "m" := by
  rcases s with ⟨fg, bg, b1, b2, b3, b4, b5, b6, b7⟩
  simp only [Style.write_prefix, h, Bool.false_eq_true, if_false]
  cases fg <;> cases bg <;> cases b1 <;> cases b2 <;> cases b3 <;> cases b4 <;> cases b5 <;>
    cases b6 <;> cases b7 <;>
    simp [write_piece, Style.spec_codes, join_codes, join_semis, ← String.append_assoc]

/-- Concatenating joined write lists distributes over list append. -/
theorem join_all_append (xs ys : List String) :
    join_all (xs ++ ys) = join_all xs ++ join_all ys := by
  induction xs with
  | nil => simp [join_all]
  | cons x xs ih => simp [join_all, ih, String.append_assoc]

set_option maxHeartbeats 1600000 in
/-- The write sequence of the prefix concatenates to the specified prefix
shape for non-plain styles. -/
theorem join_prefix_writes_spec (s : Style) (h : Style.is_plain s = false) :
    join_all ( Style.prefix_writes s) = "\x1b[" ++ join_codes ( Style.spec_codes s) ++ "m" := by
  rcases s with ⟨fg, bg, b1, b2, b3, b4, b5, b6, b7⟩
  simp only [Style.prefix_writes, h, Bool.false_eq_true, if_false]
  cases fg <;> cases bg <;> cases b1 <;> cases b2 <;> cases b3 <;> cases b4 <;> cases b5 <;>
    cases b6 <;> cases b7 <;>
    simp [piece_write, Style.spec_codes, join_codes, join_semis, join_all, join_all_append,
      ← String.append_assoc]

/-- The write sequence of the prefix concatenates to the pure prefix. -/
theorem join_prefix_writes (s : Style) :
    join_all ( Style.prefix_writes s) = Style.write_prefix s := by
  cases h : Style.is_plain s with
  | true => simp [Style.prefix_writes, Style.write_prefix, h, join_all]
  | false => rw [join_prefix_writes_spec s h, write_prefix_spec s h]

/-- The write sequence of the whole `Display` implementation concatenates to
the pure rendering. -/
theorem join_display_writes (ss : StyledString) :
    join_all ( StyledString.display_writes ss) = StyledString.display ss := by
  rcases ss with ⟨t, s⟩
  cases h : Style.is_plain s with
  | true =>
      simp [StyledString.display_writes, StyledString.display, Style.write_suffix, h, join_all,
        join_all_append, join_prefix_writes]
  | false =>
      simp [StyledString.display_writes, StyledString.display, Style.write_suffix, h, join_all,
        join_all_append, join_prefix_writes, String.append_assoc]

/-- An error outcome of running a write sequence is always the unchanged error
of one of the individual writes. -/
theorem run_writes_error_source {σ ε : Type} (w : σ → String → Except ε σ)
    (ps : List String) (s0 : σ) (e : ε)
    (h : run_writes w s0 ps = Except.error e) :
    ∃ s p, p ∈ ps ∧ w s p = Except.error e := by
  induction ps generalizing s0 with
  | nil => simp [run_writes] at h
  | cons p ps ih =>
      rw [run_writes] at h
      cases hw : w s0 p with
      | ok s2 =>
          rw [hw] at h
          obtain ⟨s, q, hq, he⟩ := ih s2 h
          exact ⟨s, q, List.mem_cons_of_mem _ hq, he⟩
      | error e2 =>
          rw [hw] at h
          injection h with he
          subst he
          exact ⟨s0, p, List.mem_cons_self _ _, hw⟩

/-- Running a write sequence against a destination that accepts every write
always succeeds. -/
theorem run_writes_ok_total {σ ε : Type} (w : σ → String → Except ε σ)
    (hw : ∀ s p, ∃ s2, w s p = Except.ok s2) (ps : List String) (s0 : σ) :
    ∃ s2, run_writes w s0 ps = Except.ok s2 := by
  induction ps generalizing s0 with
  | nil => exact ⟨s0, rfl⟩
  | cons p ps ih =>
      obtain ⟨s1, h1⟩ := hw s0 p
      rw [run_writes, h1]
      exact ih s1

/-- C1: for every non-plain style and every text, rendering the painted string
yields exactly `ESC[`, the semicolon-separated code list (attribute digits
`1`..`7` for the set flags in order bold, dimmed, italic, underline, blink,
reverse, hidden, then the foreground code if set, then the background code if
set, with no leading or trailing semicolon), then `m`, the text verbatim, and
the fixed suffix `ESC[0m`. -/
theorem nonplain_render_exact (s : Style) (t : String) (h : Style.is_plain s = false) :
    StyledString.display ( Style.paint s t) =
      "\x1b[" ++ join_codes ( Style.spec_codes s) ++ "m" ++ t ++ "\x1b[0m" := by
  simp only [StyledString.display, Style.paint, Style.write_suffix, h, Bool.false_eq_true,
    if_false, write_prefix_spec s h]

/-- Witness for C1 at a concrete non-plain style and text. -/
theorem nonplain_render_exact_witness :
    Style.is_plain ( Style.set_bold ( Style.set_foreground Style.new Color.Red)) = false ∧
    StyledString.display
        ( Style.paint ( Style.set_bold ( Style.set_foreground Style.new Color.Red)) "TEST") =
      "\x1b[" ++
        join_codes ( Style.spec_codes ( Style.set_bold ( Style.set_foreground Style.new Color.Red))) ++
        "m" ++ "TEST" ++ "\x1b[0m" :=
  ⟨by decide,
    nonplain_render_exact ( Style.set_bold ( Style.set_foreground Style.new Color.Red)) "TEST"
      (by decide)⟩

/-- C2: for every style structurally equal to the canonical default and every
text, the prefix and the suffix are both empty and rendering the painted
string yields the input text unchanged. -/
theorem plain_render_identity (s : Style) (t : String) (h : Style.is_plain s = true) :
    Style.write_prefix s = "" ∧ Style.write_suffix s = "" ∧
    StyledString.display ( Style.paint s t) = t := by
  refine ⟨?_, ?_, ?_⟩
  · simp [Style.write_prefix, h]
  · simp [Style.write_suffix, h]
  · simp [StyledString.display, Style.paint, Style.write_prefix, Style.write_suffix, h,
      String.empty_append, String.append_empty]

/-- Witness for C2 at the default style and a concrete text. -/
theorem plain_render_identity_witness :
    Style.write_prefix Style.default = "" ∧ Style.write_suffix Style.default = "" ∧
    StyledString.display ( Style.paint Style.default "TEST") = "TEST" :=
  plain_render_identity Style.default "TEST" (by decide)

/-- C3: the foreground code renderer maps the eight named variants in
enumeration order to `30`..`37`, the palette variant to `38;5;` followed by the
decimal payload, and the RGB variant to `38;2;` followed by the three decimals
separated by semicolons; the background renderer is the same table shifted to
`40`..`47`, `48;5;` and `48;2;`. -/
theorem color_code_tables :
    ( Color.write_foreground_code Color.Black = "30" ∧
      Color.write_foreground_code Color.Red = "31" ∧
      Color.write_foreground_code Color.Green = "32" ∧
      Color.write_foreground_code Color.Yellow = "33" ∧
      Color.write_foreground_code Color.Blue = "34" ∧
      Color.write_foreground_code Color.Purple = "35" ∧
      Color.write_foreground_code Color.Cyan = "36" ∧
      Color.write_foreground_code Color.White = "37") ∧
    ( Color.write_background_code Color.Black = "40" ∧
      Color.write_background_code Color.Red = "41" ∧
      Color.write_background_code Color.Green = "42" ∧
      Color.write_background_code Color.Yellow = "43" ∧
      Color.write_background_code Color.Blue = "44" ∧
      Color.write_background_code Color.Purple = "45" ∧
      Color.write_background_code Color.Cyan = "46" ∧
      Color.write_background_code Color.White = "47") ∧
    (∀ n, Color.write_foreground_code (Color.Fixed n) = "38;5;" ++ Nat.repr n) ∧
    (∀ r g b, Color.write_foreground_code (Color.Rgb r g b) =
      "38;2;" ++ Nat.repr r ++ ";" ++ Nat.repr g ++ ";" ++ Nat.repr b) ∧
    (∀ n, Color.write_background_code (Color.Fixed n) = "48;5;" ++ Nat.repr n) ∧
    (∀ r g b, Color.write_background_code (Color.Rgb r g b) =
      "48;2;" ++ Nat.repr r ++ ";" ++ Nat.repr g ++ ";" ++ Nat.repr b) :=
  ⟨⟨rfl, rfl, rfl, rfl, rfl, rfl, rfl, rfl⟩,
   ⟨rfl, rfl, rfl, rfl, rfl, rfl, rfl, rfl⟩,
   fun _ => rfl, fun _ _ _ => rfl, fun _ => rfl, fun _ _ _ => rfl⟩

/-- C4: each convenience method on `Color` builds a style structurally equal
to the one assembled through the `Style` builder on the same fields, and hence
both construction paths render identically. -/
theorem color_style_builder_equiv (c b : Color) :
    Color.normal c = Style.set_foreground Style.new c ∧
    Color.on c b = Style.set_background ( Style.set_foreground Style.new c) b ∧
    Color.bold c = Style.set_bold ( Style.set_foreground Style.new c) ∧
    Color.dimmed c = Style.set_dimmed ( Style.set_foreground Style.new c) ∧
    Color.italic c = Style.set_italic ( Style.set_foreground Style.new c) ∧
    Color.underline c = Style.set_underline ( Style.set_foreground Style.new c) ∧
    Color.blink c = Style.set_blink ( Style.set_foreground Style.new c) ∧
    Color.reverse c = Style.set_reverse ( Style.set_foreground Style.new c) ∧
    Color.hidden c = Style.set_hidden ( Style.set_foreground Style.new c) ∧
    (∀ t, StyledString.display ( Style.paint (Color.on c b) t) =
      StyledString.display
        ( Style.paint ( Style.set_background ( Style.set_foreground Style.new c) b) t)) ∧
    (∀ t, StyledString.display ( Style.paint (Color.bold c) t) =
      StyledString.display ( Style.paint ( Style.set_bold ( Style.set_foreground Style.new c)) t)) :=
  ⟨rfl, rfl, rfl, rfl, rfl, rfl, rfl, rfl, rfl, fun _ => rfl, fun _ => rfl⟩

/-- C5: every builder method is pure copy-and-override: the result overrides
exactly the named field and keeps every other field of the receiver, and for a
plain receiver the result of `bold` differs from the default only in the bold
flag. -/
theorem builder_frame_pure (a : Style) (c : Color) :
    Style.set_foreground a c = { a with foreground := some c } ∧
    Style.set_background a c = { a with background := some c } ∧
    Style.set_bold a = { a with bold := true } ∧
    Style.set_dimmed a = { a with dimmed := true } ∧
    Style.set_italic a = { a with italic := true } ∧
    Style.set_underline a = { a with underline := true } ∧
    Style.set_blink a = { a with blink := true } ∧
    Style.set_reverse a = { a with reverse := true } ∧
    Style.set_hidden a = { a with hidden := true } ∧
    ( Style.is_plain a = true →
      Style.is_plain a = true ∧ Style.set_bold a = { Style.default with bold := true }) := by
  refine ⟨rfl, rfl, rfl, rfl, rfl, rfl, rfl, rfl, rfl, fun h => ⟨h, ?_⟩⟩
  have ha : a = Style.default := by simpa [Style.is_plain] using h
  rw [ha]
  rfl

/-- Witness for C5 at the default style. -/
theorem builder_frame_pure_witness :
    Style.is_plain Style.default = true ∧
    Style.set_bold Style.default = { Style.default with bold := true } :=
  (builder_frame_pure Style.default Color.Red).2.2.2.2.2.2.2.2.2 (by decide)

/-- C6: the `Display` implementation issues exactly the write sequence whose
concatenation is the pure rendering; against any destination, an error outcome
is always the unchanged error raised by one of the writes, and against a
destination that accepts every write the rendering always succeeds. -/
theorem display_error_propagation :
    (∀ ss : StyledString, join_all ( StyledString.display_writes ss) = StyledString.display ss) ∧
    (∀ (σ ε : Type) (w : σ → String → Except ε σ) (ss : StyledString) (s0 : σ) (e : ε),
        run_writes w s0 ( StyledString.display_writes ss) = Except.error e →
        ∃ s p, p ∈ StyledString.display_writes ss ∧ w s p = Except.error e) ∧
    (∀ (σ ε : Type) (w : σ → String → Except ε σ),
        (∀ s p, ∃ s2, w s p = Except.ok s2) →
        ∀ (ss : StyledString) (s0 : σ),
          ∃ s2, run_writes w s0 ( StyledString.display_writes ss) = Except.ok s2) :=
  ⟨join_display_writes,
    fun _ _ w _ s0 e h => run_writes_error_source w _ s0 e h,
    fun _ _ w hw _ s0 => run_writes_ok_total w hw _ s0⟩

/-- Witness for C6: a destination rejecting every write makes rendering fail
with exactly that destination's error. -/
theorem display_error_propagation_witness :
    ∃ s p, p ∈ StyledString.display_writes ( Style.paint Style.default "x") ∧
      fail_writer s p = Except.error () :=
  display_error_propagation.2.1 Unit Unit fail_writer ( Style.paint Style.default "x") () () rfl

/-- C7: every builder method only ever adds attributes: each of the seven
flags set in the receiver is still set in the result, for all nine builder
methods. -/
theorem builder_attr_monotone (s : Style) (c : Color) :
    attr_le s ( Style.set_foreground s c) ∧
    attr_le s ( Style.set_background s c) ∧
    attr_le s ( Style.set_bold s) ∧
    attr_le s ( Style.set_dimmed s) ∧
    attr_le s ( Style.set_italic s) ∧
    attr_le s ( Style.set_underline s) ∧
    attr_le s ( Style.set_blink s) ∧
    attr_le s ( Style.set_reverse s) ∧
    attr_le s ( Style.set_hidden s) := by
  refine ⟨?_, ?_, ?_, ?_, ?_, ?_, ?_, ?_, ?_⟩ <;>
    simp [attr_le, Style.set_foreground, Style.set_background, Style.set_bold, Style.set_dimmed,
      Style.set_italic, Style.set_underline, Style.set_blink, Style.set_reverse, Style.set_hidden]

/-- Witness for C7: the bold flag survives a later `italic` call. -/
theorem builder_attr_monotone_witness :
    ( Style.set_italic ( Style.set_bold Style.new)).bold = true :=
  ((builder_attr_monotone ( Style.set_bold Style.new) Color.Red).2.2.2.2.1).1 (by decide)

/-- C8: applying the same attribute setter twice yields the same style as
applying it once, and likewise for setting the same foreground or background
colour twice. -/
theorem setter_idempotent (s : Style) (c : Color) :
    Style.set_bold ( Style.set_bold s) = Style.set_bold s ∧
    Style.set_dimmed ( Style.set_dimmed s) = Style.set_dimmed s ∧
    Style.set_italic ( Style.set_italic s) = Style.set_italic s ∧
    Style.set_underline ( Style.set_underline s) = Style.set_underline s ∧
    Style.set_blink ( Style.set_blink s) = Style.set_blink s ∧
    Style.set_reverse ( Style.set_reverse s) = Style.set_reverse s ∧
    Style.set_hidden ( Style.set_hidden s) = Style.set_hidden s ∧
    Style.set_foreground ( Style.set_foreground s c) c = Style.set_foreground s c ∧
    Style.set_background ( Style.set_background s c) c = Style.set_background s c :=
  ⟨rfl, rfl, rfl, rfl, rfl, rfl, rfl, rfl, rfl⟩

/-- C9: the unix screen-size query returns `None` exactly when standard output
is not an interactive terminal (`isatty` did not return `1`) or the
`TIOCGWINSZ` ioctl fails (non-zero return), and otherwise returns the reported
columns and rows with no further filtering. -/
theorem screen_size_cases (env : ScreenEnv) :
    (size env = none ↔ (env.isatty_ret ≠ 1 ∨ env.ioctl_ret ≠ 0)) ∧
    (env.isatty_ret = 1 → env.ioctl_ret = 0 →
      size env = some ({ val := env.reported.ws_col }, { val := env.reported.ws_row })) := by
  constructor
  · by_cases h1 : env.isatty_ret = 1 <;> by_cases h2 : env.ioctl_ret = 0 <;>
      simp [size, h1, h2]
  · intro h1 h2
    simp [size, h1, h2]

/-- Witness for C9 at a concrete successful environment. -/
theorem screen_size_cases_witness :
    size
        { isatty_ret := 1
          ioctl_ret := 0
          reported := { ws_row := 24, ws_col := 80, ws_xpixel := 0, ws_ypixel := 0 } } =
      some ({ val := 80 }, { val := 24 }) :=
  (screen_size_cases
    { isatty_ret := 1
      ioctl_ret := 0
      reported := { ws_row := 24, ws_col := 80, ws_xpixel := 0, ws_ypixel := 0 } }).2 rfl rfl

/-- C10: dereferencing a styled string yields exactly the stored raw text,
independent of the style. -/
theorem styled_deref_raw (s : Style) (t : String) :
    StyledString.deref ( Style.paint s t) = t ∧
    (∀ c : Color, StyledString.deref ( Color.paint c t) = t) ∧
    (∀ ss : StyledString, StyledString.deref ss = ss.string) :=
  ⟨rfl, fun _ => rfl, fun _ => rfl⟩
